import Mathlib

/-!
Verification development for the SoccerBots python backend
(`python_backend/controller_input.py`, `controller_manager.py`,
`robot_manager.py`).  Python dictionaries are embedded as association
lists with functional insert/erase, floats as rationals, and each
manager's mutable object state as an explicit record threaded through
the operations.
-/

set_option maxRecDepth 4000

/-- Association-list embedding of a Python `dict` keyed by strings. -/
abbrev SMap (α : Type) := List (String × α)

/-- Lookup of `dict.get(k)`. -/
def SMap.getA {α : Type} : SMap α → String → Option α
  | [], _ => none
  | p :: t, k => if p.1 = k then some p.2 else SMap.getA t k

/-- Lookup with a default, `dict.get(k, d)`. -/
def SMap.getD {α : Type} (m : SMap α) (k : String) (d : α) : α :=
  (m.getA k).getD d

/-- Deletion, `del m[k]` / `m.pop(k, None)`. -/
def SMap.eraseA {α : Type} : SMap α → String → SMap α
  | [], _ => []
  | p :: t, k => if p.1 = k then SMap.eraseA t k else p :: SMap.eraseA t k

/-- Assignment `m[k] = v` (functional: the new binding shadows the old). -/
def SMap.setA {α : Type} (m : SMap α) (k : String) (v : α) : SMap α :=
  (k, v) :: m.eraseA k

/-- Membership test `k in m`. -/
def SMap.hasKey {α : Type} (m : SMap α) (k : String) : Bool :=
  (m.getA k).isSome

theorem SMap.getA_eraseA {α : Type} (m : SMap α) (k k' : String) :
    (m.eraseA k).getA k' = if k' = k then none else m.getA k' := by
  induction m with
  | nil => simp [SMap.eraseA, SMap.getA]
  | cons p t ih =>
      simp only [SMap.eraseA]
      by_cases hpk : p.1 = k
      · rw [if_pos hpk, ih]
        by_cases hk : k' = k
        · simp [hk]
        · have hpk' : p.1 ≠ k' := fun h => hk (by rw [← h, hpk])
          rw [if_neg hk, if_neg hk]
          simp [SMap.getA, hpk']
      · rw [if_neg hpk]
        simp only [SMap.getA]
        by_cases hpk' : p.1 = k'
        · have hk : ¬ k' = k := fun h => hpk (hpk'.trans h)
          simp [hpk', hk]
        · simp [hpk', ih]

theorem SMap.getA_setA {α : Type} (m : SMap α) (k k' : String) (v : α) :
    (m.setA k v).getA k' = if k' = k then some v else m.getA k' := by
  by_cases hk : k' = k
  · simp [SMap.setA, SMap.getA, hk]
  · have hk' : k ≠ k' := fun h => hk h.symm
    simp [SMap.setA, SMap.getA, hk, hk', SMap.getA_eraseA]

namespace SoccerBots

/-- Normalized controller input record (`ControllerInput.__init__`):
four stick axes, two triggers, a d-pad scalar and 16 buttons. -/
structure ControllerInput where
  left_stick_x : ℚ := 0
  left_stick_y : ℚ := 0
  right_stick_x : ℚ := 0
  right_stick_y : ℚ := 0
  left_trigger : ℚ := 0
  right_trigger : ℚ := 0
  dpad : ℚ := 0
  buttons : List Bool := List.replicate 16 false
deriving Repr, DecidableEq

namespace ControllerInput

/-- Constant `DEADZONE = 0.1`. -/
def DEADZONE : ℚ := 1/10

/-- Constant `MOVEMENT_THRESHOLD = 0.05`. -/
def MOVEMENT_THRESHOLD : ℚ := 1/20

/-- Method `apply_deadzone`: values closer to the centre than the
deadzone become exactly 0, everything else passes through. -/
def apply_deadzone (value : ℚ) : ℚ :=
  if |value| < DEADZONE then 0 else value

/-- Setter `set_left_stick_x` (applies the deadzone). -/
def set_left_stick_x (i : ControllerInput) (value : ℚ) : ControllerInput :=
  { i with left_stick_x := apply_deadzone value }

/-- Setter `set_left_stick_y` (applies the deadzone). -/
def set_left_stick_y (i : ControllerInput) (value : ℚ) : ControllerInput :=
  { i with left_stick_y := apply_deadzone value }

/-- Setter `set_right_stick_x` (applies the deadzone). -/
def set_right_stick_x (i : ControllerInput) (value : ℚ) : ControllerInput :=
  { i with right_stick_x := apply_deadzone value }

/-- Setter `set_right_stick_y` (applies the deadzone). -/
def set_right_stick_y (i : ControllerInput) (value : ℚ) : ControllerInput :=
  { i with right_stick_y := apply_deadzone value }

/-- Setter `set_left_trigger`: clamps into `[0, 1]`. -/
def set_left_trigger (i : ControllerInput) (value : ℚ) : ControllerInput :=
  { i with left_trigger := max 0 (min 1 value) }

/-- Setter `set_right_trigger`: clamps into `[0, 1]`. -/
def set_right_trigger (i : ControllerInput) (value : ℚ) : ControllerInput :=
  { i with right_trigger := max 0 (min 1 value) }

/-- Setter `set_dpad`. -/
def set_dpad (i : ControllerInput) (value : ℚ) : ControllerInput :=
  { i with dpad := value }

/-- Setter `set_button`: updates the flag only for an in-range index. -/
def set_button (i : ControllerInput) (index : ℤ) (pressed : Bool) : ControllerInput :=
  if 0 ≤ index ∧ index < i.buttons.length then
    { i with buttons := i.buttons.set index.toNat pressed }
  else i

/-- Predicate `has_movement`: some post-deadzone stick axis exceeds the
movement threshold in absolute value. -/
def has_movement (i : ControllerInput) : Bool :=
  decide (|i.left_stick_x| > MOVEMENT_THRESHOLD) ||
  decide (|i.left_stick_y| > MOVEMENT_THRESHOLD) ||
  decide (|i.right_stick_x| > MOVEMENT_THRESHOLD) ||
  decide (|i.right_stick_y| > MOVEMENT_THRESHOLD)

/-- Predicate `is_stop_command`: no movement present. -/
def is_stop_command (i : ControllerInput) : Bool :=
  ! i.has_movement

end ControllerInput

/-- Record `GameController.__init__`: a detected controller starts
connected, with a fresh all-zero input frame and no paired robot. -/
structure GameController where
  id : String
  ctype : String
  name : String
  connected : Bool := true
  current_input : ControllerInput := {}
  paired_robot_id : Option String := none
deriving Repr, DecidableEq

namespace GameController

/-- Method `update_input`: replaces the current frame wholesale. -/
def update_input (c : GameController) (input_data : ControllerInput) : GameController :=
  { c with current_input := input_data }

/-- Method `set_paired_robot_id`. -/
def set_paired_robot_id (c : GameController) (robot_id : Option String) : GameController :=
  { c with paired_robot_id := robot_id }

end GameController

/-- Modelled from the spec: class `Robot` lives in `robot.py`, which is
not among the inspected sources; §3 of the spec gives its fields
(identity, display name, ip address, status, last-seen time, optional
paired controller id) and the manager code accesses exactly these. -/
structure Robot where
  id : String
  name : String
  ip_address : String
  status : String
  last_seen_time : ℚ
  paired_controller_id : Option String := none
deriving Repr, DecidableEq

namespace Robot

/-- Modelled from the spec: `Robot.set_ip_address` refreshes the
address reported by the latest ping. -/
def set_ip_address (r : Robot) (ip : String) : Robot :=
  { r with ip_address := ip }

/-- Modelled from the spec: `Robot.update_last_seen_time` stamps the
current time. -/
def update_last_seen_time (r : Robot) (now : ℚ) : Robot :=
  { r with last_seen_time := now }

/-- Modelled from the spec: `Robot.set_paired_controller` stores the
back-reference to the paired controller. -/
def set_paired_controller (r : Robot) (cid : Option String) : Robot :=
  { r with paired_controller_id := cid }

end Robot

/-- Observable outputs handed to collaborators: the two command objects
of §6 plus the `robotReceivingCommand` notification. -/
inductive Output where
  | moveCmd (robotId : String) (leftX leftY rightX rightY : ℚ)
  | stopCmd (robotId : String)
  | receiving (robotId : String) (value : Bool)
deriving Repr, DecidableEq

/-- Mutable state of `RobotManager`: the two robot maps, the game
state string and the emergency-stop mirror. -/
structure RobotManagerState where
  connected_robots : SMap Robot := []
  discovered_robots : SMap Robot := []
  current_game_state : String := "standby"
  emergency_stop_active : Bool := false
deriving Repr, DecidableEq

namespace RobotManagerState

/-- Constant `ROBOT_TIMEOUT_SECONDS = 60.0`. -/
def ROBOT_TIMEOUT_SECONDS : ℚ := 60

/-- Modelled from the spec: `RobotManager.get_robot` is declared in the
missing portion of `robot_manager.py`; §4.1 says `sendStopCommand`
"resolves the robot from either map", so lookup tries `connected`
first and falls back to `discovered`. -/
def get_robot (rm : RobotManagerState) (robot_id : String) : Option Robot :=
  (rm.connected_robots.getA robot_id).orElse
    (fun _ => rm.discovered_robots.getA robot_id)

/-- Update of the robot record `get_robot` aliases: the Python code
mutates the returned object in place, which edits the entry of
whichever map it came from. -/
def set_robot_paired (rm : RobotManagerState) (robot_id : String)
    (cid : Option String) : RobotManagerState :=
  match rm.connected_robots.getA robot_id with
  | some r =>
      { rm with connected_robots :=
          rm.connected_robots.setA robot_id (r.set_paired_controller cid) }
  | none =>
      match rm.discovered_robots.getA robot_id with
      | some r =>
          { rm with discovered_robots :=
              rm.discovered_robots.setA robot_id (r.set_paired_controller cid) }
      | none => rm

/-- Body of `RobotManager._handle_discovery_ping`: parse
`DISCOVER:<robotId>:<IP>`; a connected robot gets a heartbeat refresh,
otherwise the discovered map is upserted. -/
def handle_discovery_ping (rm : RobotManagerState) (now : ℚ)
    (message : String) : RobotManagerState :=
  let parts := message.splitOn ":"
  if 3 ≤ parts.length then
    let robot_id := parts.getD 1 ""
    let ip_address := parts.getD 2 ""
    match rm.connected_robots.getA robot_id with
    | some robot =>
        let robot2 := (robot.set_ip_address ip_address).update_last_seen_time now
        { rm with connected_robots := rm.connected_robots.setA robot_id robot2 }
    | none =>
        match rm.discovered_robots.getA robot_id with
        | none =>
            let robot2 : Robot :=
              { id := robot_id, name := robot_id, ip_address := ip_address,
                status := "discovered", last_seen_time := now }
            { rm with discovered_robots := rm.discovered_robots.setA robot_id robot2 }
        | some robot =>
            let robot2 := (robot.set_ip_address ip_address).update_last_seen_time now
            { rm with discovered_robots := rm.discovered_robots.setA robot_id robot2 }
  else rm

/-- One iteration of `RobotManager._discovery_loop`: only messages
prefixed `DISCOVER:` reach the ping handler. -/
def process_discovery_message (rm : RobotManagerState) (now : ℚ)
    (message : String) : RobotManagerState :=
  if message.startsWith "DISCOVER:" then rm.handle_discovery_ping now message
  else rm

/-- Method `RobotManager.send_stop_command`: an unknown id produces a
warning and nothing else; a resolved robot yields a stop command and a
`receiving = false` notification. -/
def send_stop_command (rm : RobotManagerState) (robot_name : String) :
    List Output :=
  match rm.get_robot robot_name with
  | none => []
  | some robot => [Output.stopCmd robot_name, Output.receiving robot.id false]

/-- Modelled from the spec: `RobotManager.send_movement_command` is in
the missing portion of `robot_manager.py`; §6 says the core produces
`MovementCommand(robotId, leftX, leftY, rightX, rightY)` for the
transmission collaborator. -/
def send_movement_command (robot_id : String) (lx ly rx ry : ℚ) :
    List Output :=
  [Output.moveCmd robot_id lx ly rx ry]

/-- One locked pass of `RobotManager._timeout_check_loop`: drop every
connected robot past the timeout (emitting `receiving = false` and
recording the id for callbacks) and purge stale discovered robots.
Returns the new state, the outputs and the recorded disconnect ids. -/
def timeout_sweep (rm : RobotManagerState) (now : ℚ) :
    RobotManagerState × List Output × List String :=
  let timedOut := fun (r : Robot) => decide (now - r.last_seen_time > ROBOT_TIMEOUT_SECONDS)
  let victims := rm.connected_robots.filter (fun p => timedOut p.2)
  let connected2 := rm.connected_robots.filter (fun p => ! timedOut p.2)
  let discovered2 := rm.discovered_robots.filter (fun p => ! timedOut p.2)
  let disconnected := victims.map (·.1)
  ({ rm with connected_robots := connected2, discovered_robots := discovered2 },
   disconnected.map (fun rid => Output.receiving rid false),
   disconnected)

/-- Callback phase of `_timeout_check_loop`: after the lock is
released, every registered disconnect callback is invoked on every
recorded id.  Callbacks are abstracted by a tag; an invocation pairs a
callback tag with the robot id it receives. -/
def disconnect_invocations (callbacks : List Nat) (disconnected : List String) :
    List (Nat × String) :=
  disconnected.flatMap (fun rid => callbacks.map (fun cb => (cb, rid)))

end RobotManagerState

/-- Raw device frame read from a pygame joystick: reported axis values,
button states and hats. -/
structure RawJoystick where
  axes : List ℚ := []
  buttons : List Bool := []
  hats : List (ℤ × ℤ) := []
deriving Repr, DecidableEq

/-- Access `joystick.get_axis(i)` (the code only reads indices below
the reported count, so a default of 0 is never observable). -/
def RawJoystick.get_axis (j : RawJoystick) (i : Nat) : ℚ :=
  j.axes.getD i 0

/-- Mutable state of `ControllerManager` (the pygame joystick handles
are abstracted away: scans report which controller ids the enumeration
observed, and polling takes the live frames as a parameter). -/
structure ControllerManagerState where
  connected_controllers : SMap GameController := []
  controller_robot_pairings : SMap String := []
  controller_enabled : SMap Bool := []
  missing_counts : SMap Nat := []
  emergency_stop_active : Bool := false
deriving Repr, DecidableEq

/-- Combined state of the two managers (the controller manager holds a
reference to the robot manager). -/
structure SystemState where
  cm : ControllerManagerState := {}
  rm : RobotManagerState := {}
deriving Repr, DecidableEq

namespace ControllerManager

open RobotManagerState

/-- Method `ControllerManager._read_controller_input`: sticks from axes
0–3 (guarded by the reported axis count), triggers remapped from axes 4
and 5 when six or more axes exist, up to 16 buttons, and the first hat
folded into the d-pad scalar. -/
def read_controller_input (j : RawJoystick) : ControllerInput :=
  let input0 : ControllerInput := {}
  let input1 :=
    if 2 ≤ j.axes.length then
      (input0.set_left_stick_x (j.get_axis 0)).set_left_stick_y (j.get_axis 1)
    else input0
  let input2 :=
    if 4 ≤ j.axes.length then
      (input1.set_right_stick_x (j.get_axis 2)).set_right_stick_y (j.get_axis 3)
    else input1
  let input3 :=
    if 6 ≤ j.axes.length then
      (input2.set_left_trigger ((j.get_axis 4 + 1) / 2)).set_right_trigger
        ((j.get_axis 5 + 1) / 2)
    else input2
  let input4 :=
    (List.range (min j.buttons.length 16)).foldl
      (fun acc i => acc.set_button i (j.buttons.getD i false)) input3
  if h : 0 < j.hats.length then
    let hat := j.hats.get ⟨0, h⟩
    input4.set_dpad ((hat.1 : ℚ) + (hat.2 : ℚ) * 2)
  else input4

/-- Confirmed-removal body of `ControllerManager._detect_controllers`:
drop the miss counter, clear a pairing on both sides (the robot side
only when the robot resolves), then delete the controller, its
joystick handle and its enabled flag. -/
def remove_controller (st : SystemState) (controller_id : String) : SystemState :=
  let st1 :=
    { st with cm := { st.cm with
        missing_counts := st.cm.missing_counts.eraseA controller_id } }
  let st2 : SystemState :=
    match st1.cm.controller_robot_pairings.getA controller_id with
    | some robot_id =>
        let rm2 :=
          match st1.rm.get_robot robot_id with
          | some _ => st1.rm.set_robot_paired robot_id none
          | none => st1.rm
        { cm := { st1.cm with controller_robot_pairings :=
            st1.cm.controller_robot_pairings.eraseA controller_id },
          rm := rm2 }
    | none => st1
  { st2 with cm := { st2.cm with
      connected_controllers := st2.cm.connected_controllers.eraseA controller_id,
      controller_enabled := st2.cm.controller_enabled.eraseA controller_id } }

/-- Per-controller step of the removal phase of `_detect_controllers`
for a tracked controller the enumeration did not observe: a joystick
handle that still reports initialized keeps the controller and resets
its miss counter; otherwise the counter is bumped and, at the third
miss, the controller is removed. -/
def scan_missing_step (still_init : String → Bool) (st : SystemState)
    (controller_id : String) : SystemState :=
  if still_init controller_id then
    { st with cm := { st.cm with
        missing_counts := st.cm.missing_counts.eraseA controller_id } }
  else
    let miss := st.cm.missing_counts.getD controller_id 0 + 1
    let st1 :=
      { st with cm := { st.cm with
          missing_counts := st.cm.missing_counts.setA controller_id miss } }
    if miss < 3 then st1 else remove_controller st1 controller_id

/-- A device reported by one enumeration pass: its derived stable id,
classified type and name. -/
structure ObservedDevice where
  id : String
  ctype : String
  name : String
deriving Repr, DecidableEq

/-- Registration phase of `_detect_controllers`: every enumerated
device whose id is not yet tracked is registered as a new controller,
enabled by default. -/
def register_device (st : SystemState) (d : ObservedDevice) : SystemState :=
  if st.cm.connected_controllers.hasKey d.id then st
  else
    { st with cm := { st.cm with
        connected_controllers := st.cm.connected_controllers.setA d.id
          { id := d.id, ctype := d.ctype, name := d.name },
        controller_enabled := st.cm.controller_enabled.setA d.id true } }

/-- One pass of `ControllerManager._detect_controllers`: enumerated
devices are matched to tracked slots or registered; tracked
controllers the enumeration missed go through the debounce/removal
step. -/
def detect_controllers (st : SystemState) (devices : List ObservedDevice)
    (still_init : String → Bool) : SystemState :=
  let current_ids := devices.map (·.id)
  let st1 := devices.foldl register_device st
  let disconnected :=
    (st1.cm.connected_controllers.map (·.1)).filter
      (fun cid => ! current_ids.contains cid)
  disconnected.foldl (scan_missing_step still_init) st1

/-- Method `ControllerManager.pair_controller_with_robot`: for a
tracked controller, set the controller-side pointer and the forward
map, and the robot back-reference when the robot resolves; an unknown
controller only logs a warning. -/
def pair_controller_with_robot (st : SystemState) (controller_id robot_id : String) :
    SystemState :=
  match st.cm.connected_controllers.getA controller_id with
  | some game_controller =>
      let gc2 := game_controller.set_paired_robot_id (some robot_id)
      let rm2 :=
        match st.rm.get_robot robot_id with
        | some _ => st.rm.set_robot_paired robot_id (some controller_id)
        | none => st.rm
      { cm := { st.cm with
          connected_controllers := st.cm.connected_controllers.setA controller_id gc2,
          controller_robot_pairings :=
            st.cm.controller_robot_pairings.setA controller_id robot_id },
        rm := rm2 }
  | none => st

/-- Method `ControllerManager.unpair_controller`: for a forward-mapped
controller, clear the controller-side pointer, the robot
back-reference when the robot resolves, and the forward map entry. -/
def unpair_controller (st : SystemState) (controller_id : String) : SystemState :=
  match st.cm.controller_robot_pairings.getA controller_id with
  | some robot_id =>
      let cm1 : ControllerManagerState :=
        match st.cm.connected_controllers.getA controller_id with
        | some game_controller =>
            let gc2 := game_controller.set_paired_robot_id none
            { st.cm with connected_controllers :=
                st.cm.connected_controllers.setA controller_id gc2 }
        | none => st.cm
      let rm2 :=
        match st.rm.get_robot robot_id with
        | some _ => st.rm.set_robot_paired robot_id none
        | none => st.rm
      { cm := { cm1 with controller_robot_pairings :=
          cm1.controller_robot_pairings.eraseA controller_id },
        rm := rm2 }
  | none => st

/-- Method `ControllerManager.enable_controller`: sets the enabled flag
unconditionally, with no registry check. -/
def enable_controller (st : SystemState) (controller_id : String) : SystemState :=
  { st with cm := { st.cm with
      controller_enabled := st.cm.controller_enabled.setA controller_id true } }

/-- Truthiness of the Python expression `if paired_robot_id and ...`:
`None` and the empty string are falsy. -/
def optTruthy : Option String → Bool
  | none => false
  | some s => ! (s == "")

/-- Per-controller body of `ControllerManager._poll_controller_inputs`:
skip disabled controllers and missing joysticks; otherwise store the
freshly normalized frame and, when paired and not emergency-stopped,
emit a movement command on movement and a stop command otherwise. -/
def poll_step (frames : String → Option RawJoystick)
    (acc : SystemState × List Output) (entry : String × GameController) :
    SystemState × List Output :=
  let st := acc.1
  let controller_id := entry.1
  if ! st.cm.controller_enabled.getD controller_id false then acc
  else
    match frames controller_id with
    | none => acc
    | some joystick =>
        let input_data := read_controller_input joystick
        let st1 :=
          { st with cm := { st.cm with
              connected_controllers := st.cm.connected_controllers.setA controller_id
                (entry.2.update_input input_data) } }
        let paired_robot_id := st1.cm.controller_robot_pairings.getA controller_id
        if optTruthy paired_robot_id && ! st1.cm.emergency_stop_active then
          let rid := paired_robot_id.getD ""
          if input_data.has_movement then
            (st1, acc.2 ++ RobotManagerState.send_movement_command rid
              input_data.left_stick_x input_data.left_stick_y
              input_data.right_stick_x input_data.right_stick_y)
          else if input_data.is_stop_command then
            (st1, acc.2 ++ st1.rm.send_stop_command rid)
          else (st1, acc.2)
        else (st1, acc.2)

/-- One cycle of `ControllerManager._poll_controller_inputs` over the
snapshot of tracked controllers, accumulating emitted outputs. -/
def poll_controller_inputs (st : SystemState)
    (frames : String → Option RawJoystick) : SystemState × List Output :=
  st.cm.connected_controllers.foldl (poll_step frames) (st, [])

end ControllerManager

/-- Bidirectional pairing agreement of §3: a robot's back-reference
names a controller exactly when that controller's forward pointer
names the robot. -/
def PairConsistent (st : SystemState) : Prop :=
  ∀ rid r cid gc, st.rm.get_robot rid = some r →
    st.cm.connected_controllers.getA cid = some gc →
    (r.paired_controller_id = some cid ↔ gc.paired_robot_id = some rid)

/-- Agreement between the forward map `controller_robot_pairings` and
the pointer stored on each `GameController`. -/
def ForwardCoherent (st : SystemState) : Prop :=
  ∀ cid, st.cm.controller_robot_pairings.getA cid =
    (st.cm.connected_controllers.getA cid).bind (fun gc => gc.paired_robot_id)

/-- Trigger values as claim C8 words them: the trailing two reported
axes, remapped via `(v+1)/2` and clamped to `[0,1]`.  Stated from the
claim, to be compared with `read_controller_input`. -/
def trailing_trigger_values (axes : List ℚ) : ℚ × ℚ :=
  (max 0 (min 1 ((axes.getD (axes.length - 2) 0 + 1) / 2)),
   max 0 (min 1 ((axes.getD (axes.length - 1) 0 + 1) / 2)))

namespace Examples

/-- Concrete controller used by witness states. -/
def gcC1 : GameController := { id := "c1", ctype := "Generic", name := "Controller 1" }

/-- Concrete robot `r1`. -/
def robotR1 : Robot :=
  { id := "r1", name := "r1", ip_address := "10.0.0.1",
    status := "discovered", last_seen_time := 0 }

/-- Concrete robot `r2`. -/
def robotR2 : Robot :=
  { id := "r2", name := "r2", ip_address := "10.0.0.2",
    status := "discovered", last_seen_time := 0 }

/-- Base state: one tracked, enabled, unpaired controller and two
discovered robots. -/
def stBase : SystemState :=
  { cm := { connected_controllers := [("c1", gcC1)],
            controller_enabled := [("c1", true)] },
    rm := { discovered_robots := [("r1", robotR1), ("r2", robotR2)] } }

/-- Base state after pairing `c1` with `r1` and then re-pairing `c1`
with `r2` (last-writer-wins). -/
def stPairTwice : SystemState :=
  ControllerManager.pair_controller_with_robot
    (ControllerManager.pair_controller_with_robot stBase "c1" "r1") "c1" "r2"

/-- Base state with `c1` paired to `r1` and the emergency-stop mirror
raised in the controller manager. -/
def stEstop : SystemState :=
  let s := ControllerManager.pair_controller_with_robot stBase "c1" "r1"
  { s with cm := { s.cm with emergency_stop_active := true } }

/-- Live frames for the emergency-stop witness: `c1` holds its left
stick fully deflected. -/
def framesC1 : String → Option RawJoystick :=
  fun cid => if cid = "c1" then some { axes := [1, 1] } else none

/-- Base state with `c1` paired to `r1`, for the debounce trace. -/
def stDebounce : SystemState :=
  ControllerManager.pair_controller_with_robot stBase "c1" "r1"

/-- The enumeration record for `c1` when a scan observes it. -/
def devC1 : ControllerManager.ObservedDevice :=
  { id := "c1", ctype := "Generic", name := "Controller 1" }

/-- A joystick-liveness probe that always reports dead handles. -/
def noInit : String → Bool := fun _ => false

/-- Debounce trace state after scan 1 (controller missing). -/
def debounce1 : SystemState := ControllerManager.detect_controllers stDebounce [] noInit

/-- Debounce trace state after scan 2 (controller observed again). -/
def debounce2 : SystemState := ControllerManager.detect_controllers debounce1 [devC1] noInit

/-- Debounce trace state after scan 3 (controller missing again). -/
def debounce3 : SystemState := ControllerManager.detect_controllers debounce2 [] noInit

/-- Debounce trace state after scan 4 (second consecutive miss). -/
def debounce4 : SystemState := ControllerManager.detect_controllers debounce3 [] noInit

/-- A connected robot last seen at time 0, for the health sweep. -/
def rmStale : RobotManagerState :=
  { connected_robots := [("bot1",
      { id := "bot1", name := "bot1", ip_address := "10.0.0.9",
        status := "connected", last_seen_time := 0 })] }

/-- Raw frame with seven axes, so the trailing two differ from axes 4
and 5. -/
def jSeven : RawJoystick := { axes := [0, 0, 0, 0, -1, 0, 1] }

/-- Raw frame with exactly six axes. -/
def jSix : RawJoystick := { axes := [0, 0, 0, 0, 1, -3] }

end Examples

/-! Helper lemmas shared by the claim theorems. -/

theorem apply_deadzone_movement_iff (v : ℚ) :
    (|ControllerInput.apply_deadzone v| > ControllerInput.MOVEMENT_THRESHOLD) ↔
      ControllerInput.apply_deadzone v ≠ 0 := by
  unfold ControllerInput.apply_deadzone ControllerInput.DEADZONE ControllerInput.MOVEMENT_THRESHOLD
  split
  · simp
  · rename_i h
    push_neg at h
    have h1 : |v| > 1/20 := lt_of_lt_of_le (by norm_num) h
    have h2 : v ≠ 0 := by
      intro h0
      rw [h0] at h
      norm_num at h
    exact iff_of_true h1 h2

theorem apply_deadzone_zero_or_big (v : ℚ) :
    ControllerInput.apply_deadzone v = 0 ∨
      ControllerInput.DEADZONE ≤ |ControllerInput.apply_deadzone v| := by
  unfold ControllerInput.apply_deadzone
  split
  · exact Or.inl rfl
  · rename_i h
    push_neg at h
    exact Or.inr h

/-- C7: for every stick-axis value, normalization returns 0 exactly
when the magnitude is below the 0.10 deadzone and passes the value
through unmodified otherwise; 0.099 normalizes to 0 and 0.10 passes
through unchanged. -/
theorem claim_C7_deadzone_hard_cutoff (v : ℚ) :
    (|v| < 1/10 → ControllerInput.apply_deadzone v = 0) ∧
    (¬ |v| < 1/10 → ControllerInput.apply_deadzone v = v) ∧
    ControllerInput.apply_deadzone (99/1000) = 0 ∧
    ControllerInput.apply_deadzone (1/10) = 1/10 := by
  refine ⟨fun h => ?_, fun h => ?_, ?_, ?_⟩
  · unfold ControllerInput.apply_deadzone ControllerInput.DEADZONE
    exact if_pos h
  · unfold ControllerInput.apply_deadzone ControllerInput.DEADZONE
    exact if_neg h
  · have h : |(99/1000 : ℚ)| < 1/10 := by
      rw [abs_lt]; constructor <;> norm_num
    unfold ControllerInput.apply_deadzone ControllerInput.DEADZONE
    exact if_pos h
  · have h : ¬ |(1/10 : ℚ)| < 1/10 := not_lt.mpr (le_abs_self _)
    unfold ControllerInput.apply_deadzone ControllerInput.DEADZONE
    exact if_neg h

theorem claim_C7_deadzone_hard_cutoff_witness :
    |(99/1000 : ℚ)| < 1/10 ∧ ¬ |(1/10 : ℚ)| < 1/10 ∧
    ControllerInput.apply_deadzone (99/1000) = 0 ∧
    ControllerInput.apply_deadzone (1/10) = 1/10 :=
  have h1 : |(99/1000 : ℚ)| < 1/10 := by rw [abs_lt]; constructor <;> norm_num
  have h2 : ¬ |(1/10 : ℚ)| < 1/10 := not_lt.mpr (le_abs_self _)
  ⟨h1, h2,
   (claim_C7_deadzone_hard_cutoff (99/1000)).1 h1,
   (claim_C7_deadzone_hard_cutoff (1/10)).2.1 h2⟩

/-- C9: on any frame whose four stick fields were produced by the
deadzone setters, `has_movement` holds exactly when some stick field is
nonzero — each post-deadzone stick value is 0 or at least 0.10 in
magnitude, so the 0.05 movement threshold never discriminates. -/
theorem claim_C9_movement_iff_nonzero (i0 : ControllerInput) (lx ly rx ry : ℚ) :
    let i := (((i0.set_left_stick_x lx).set_left_stick_y ly).set_right_stick_x
      rx).set_right_stick_y ry
    (i.has_movement = true ↔
      (i.left_stick_x ≠ 0 ∨ i.left_stick_y ≠ 0 ∨
       i.right_stick_x ≠ 0 ∨ i.right_stick_y ≠ 0)) ∧
    (i.left_stick_x = 0 ∨ ControllerInput.DEADZONE ≤ |i.left_stick_x|) ∧
    (i.left_stick_y = 0 ∨ ControllerInput.DEADZONE ≤ |i.left_stick_y|) ∧
    (i.right_stick_x = 0 ∨ ControllerInput.DEADZONE ≤ |i.right_stick_x|) ∧
    (i.right_stick_y = 0 ∨ ControllerInput.DEADZONE ≤ |i.right_stick_y|) := by
  refine ⟨?_, ?_, ?_, ?_, ?_⟩
  · simp only [ControllerInput.has_movement, ControllerInput.set_left_stick_x,
      ControllerInput.set_left_stick_y, ControllerInput.set_right_stick_x,
      ControllerInput.set_right_stick_y, Bool.or_eq_true, decide_eq_true_eq]
    simp only [gt_iff_lt]
    constructor
    · rintro (((h | h) | h) | h)
      · exact Or.inl ((apply_deadzone_movement_iff lx).mp h)
      · exact Or.inr (Or.inl ((apply_deadzone_movement_iff ly).mp h))
      · exact Or.inr (Or.inr (Or.inl ((apply_deadzone_movement_iff rx).mp h)))
      · exact Or.inr (Or.inr (Or.inr ((apply_deadzone_movement_iff ry).mp h)))
    · rintro (h | h | h | h)
      · exact Or.inl (Or.inl (Or.inl ((apply_deadzone_movement_iff lx).mpr h)))
      · exact Or.inl (Or.inl (Or.inr ((apply_deadzone_movement_iff ly).mpr h)))
      · exact Or.inl (Or.inr ((apply_deadzone_movement_iff rx).mpr h))
      · exact Or.inr ((apply_deadzone_movement_iff ry).mpr h)
  · simpa [ControllerInput.set_left_stick_x, ControllerInput.set_left_stick_y,
      ControllerInput.set_right_stick_x, ControllerInput.set_right_stick_y]
      using apply_deadzone_zero_or_big lx
  · simpa [ControllerInput.set_left_stick_x, ControllerInput.set_left_stick_y,
      ControllerInput.set_right_stick_x, ControllerInput.set_right_stick_y]
      using apply_deadzone_zero_or_big ly
  · simpa [ControllerInput.set_left_stick_x, ControllerInput.set_left_stick_y,
      ControllerInput.set_right_stick_x, ControllerInput.set_right_stick_y]
      using apply_deadzone_zero_or_big rx
  · simpa [ControllerInput.set_left_stick_x, ControllerInput.set_left_stick_y,
      ControllerInput.set_right_stick_x, ControllerInput.set_right_stick_y]
      using apply_deadzone_zero_or_big ry

/-- C6: a discovery message that is not prefixed `DISCOVER:` or that
splits into fewer than three colon-delimited fields leaves the robot
manager state (both maps included) unchanged. -/
theorem claim_C6_malformed_discovery_ignored (rm : RobotManagerState) (now : ℚ)
    (message : String)
    (h : ¬ message.startsWith "DISCOVER:" = true ∨
      (message.splitOn ":").length < 3) :
    rm.process_discovery_message now message = rm := by
  unfold RobotManagerState.process_discovery_message
  rcases h with h | h
  · rw [if_neg h]
  · split
    · unfold RobotManagerState.handle_discovery_ping
      rw [if_neg (by omega)]
    · rfl

theorem claim_C6_malformed_discovery_ignored_witness :
    (¬ "HELLO".startsWith "DISCOVER:" = true ∨
      ("HELLO".splitOn ":").length < 3) ∧
    RobotManagerState.process_discovery_message {} 5 "HELLO" =
      ({} : RobotManagerState) :=
  ⟨Or.inl (by decide),
   claim_C6_malformed_discovery_ignored {} 5 "HELLO" (Or.inl (by decide))⟩

theorem set_button_triggers (i : ControllerInput) (n : ℤ) (b : Bool) :
    (i.set_button n b).left_trigger = i.left_trigger ∧
    (i.set_button n b).right_trigger = i.right_trigger := by
  unfold ControllerInput.set_button
  split <;> exact ⟨rfl, rfl⟩

theorem foldl_set_button_triggers (l : List Nat) (f : Nat → Bool)
    (i : ControllerInput) :
    ((l.foldl (fun acc k => acc.set_button (k : ℤ) (f k)) i).left_trigger =
      i.left_trigger) ∧
    ((l.foldl (fun acc k => acc.set_button (k : ℤ) (f k)) i).right_trigger =
      i.right_trigger) := by
  induction l generalizing i with
  | nil => exact ⟨rfl, rfl⟩
  | cons a t ih =>
      simp only [List.foldl_cons]
      exact ⟨((ih _).1).trans (set_button_triggers i a (f a)).1,
             ((ih _).2).trans (set_button_triggers i a (f a)).2⟩

theorem read_controller_input_triggers (j : RawJoystick)
    (h : 6 ≤ j.axes.length) :
    (ControllerManager.read_controller_input j).left_trigger =
      max 0 (min 1 ((j.get_axis 4 + 1) / 2)) ∧
    (ControllerManager.read_controller_input j).right_trigger =
      max 0 (min 1 ((j.get_axis 5 + 1) / 2)) := by
  have h2 : 2 ≤ j.axes.length := by omega
  have h4 : 4 ≤ j.axes.length := by omega
  unfold ControllerManager.read_controller_input
  simp only [if_pos h2, if_pos h4, if_pos h]
  split
  · simp only [ControllerInput.set_dpad]
    exact ⟨(foldl_set_button_triggers _ _ _).1, (foldl_set_button_triggers _ _ _).2⟩
  · exact ⟨(foldl_set_button_triggers _ _ _).1, (foldl_set_button_triggers _ _ _).2⟩

/-- C8 (amended): with six or more reported axes, the triggers are
taken from axes 4 and 5 — not from the trailing two axes — remapped via
`(v+1)/2` and clamped to `[0,1]`. -/
theorem claim_C8_triggers_amended (j : RawJoystick) (h : 6 ≤ j.axes.length) :
    (ControllerManager.read_controller_input j).left_trigger =
      max 0 (min 1 ((j.get_axis 4 + 1) / 2)) ∧
    (ControllerManager.read_controller_input j).right_trigger =
      max 0 (min 1 ((j.get_axis 5 + 1) / 2)) :=
  read_controller_input_triggers j h

theorem claim_C8_triggers_amended_witness :
    6 ≤ Examples.jSix.axes.length ∧
    (ControllerManager.read_controller_input Examples.jSix).left_trigger =
      max 0 (min 1 ((Examples.jSix.get_axis 4 + 1) / 2)) ∧
    (ControllerManager.read_controller_input Examples.jSix).right_trigger =
      max 0 (min 1 ((Examples.jSix.get_axis 5 + 1) / 2)) :=
  have h : 6 ≤ Examples.jSix.axes.length := by simp [Examples.jSix]
  ⟨h, (claim_C8_triggers_amended Examples.jSix h).1,
      (claim_C8_triggers_amended Examples.jSix h).2⟩

/-- C8 (counterexample): on a frame reporting seven axes, the stored
left trigger is computed from axis 4, which differs from the value the
claim's "trailing two axes" reading prescribes. -/
theorem claim_C8_counterexample :
    6 ≤ Examples.jSeven.axes.length ∧
    (ControllerManager.read_controller_input Examples.jSeven).left_trigger ≠
      (trailing_trigger_values Examples.jSeven.axes).1 := by
  constructor
  · simp [Examples.jSeven]
  · have hl := (read_controller_input_triggers Examples.jSeven
      (by simp [Examples.jSeven])).1
    have hv : (ControllerManager.read_controller_input Examples.jSeven).left_trigger
        = 0 := by
      rw [hl]
      norm_num [RawJoystick.get_axis, Examples.jSeven]
    rw [hv]
    norm_num [trailing_trigger_values, Examples.jSeven]

theorem SMap.getA_none_of_keys {α : Type} (m : SMap α) (k : String)
    (h : ∀ q ∈ m, q.1 ≠ k) : m.getA k = none := by
  induction m with
  | nil => rfl
  | cons q t ih =>
      simp only [SMap.getA, if_neg (h q (by simp))]
      exact ih (fun q' hq' => h q' (by simp [hq']))

theorem SMap.getA_filter_none {α : Type} (m : SMap α) (k : String) (v : α)
    (p : String × α → Bool)
    (hnodup : (m.map (·.1)).Nodup) (hget : m.getA k = some v)
    (hp : p (k, v) = false) :
    SMap.getA (m.filter p) k = none := by
  induction m with
  | nil => simp [SMap.getA] at hget
  | cons q t ih =>
      simp only [List.map_cons, List.nodup_cons] at hnodup
      obtain ⟨hq, ht⟩ := hnodup
      simp only [SMap.getA] at hget
      by_cases hqk : q.1 = k
      · rw [if_pos hqk] at hget
        have hget2 : q.2 = v := by injection hget
        have hqv : q = (k, v) := by
          rw [← hqk, ← hget2]
        have hpq : p q = false := by rw [hqv]; exact hp
        rw [List.filter_cons, if_neg (by simp [hpq])]
        apply SMap.getA_none_of_keys
        intro q' hq'
        have hmem : q'.1 ∈ t.map (·.1) :=
          List.mem_map_of_mem _ (List.mem_of_mem_filter hq')
        intro hk
        rw [hk, ← hqk] at hmem
        exact hq hmem
      · rw [if_neg hqk] at hget
        rw [List.filter_cons]
        by_cases hpq : p q = true
        · rw [if_pos (by simp [hpq])]
          simp only [SMap.getA, if_neg hqk]
          exact ih ht hget
        · rw [if_neg (by simpa using hpq)]
          exact ih ht hget

theorem SMap.count_keys_filter_one {α : Type} (m : SMap α) (k : String) (v : α)
    (p : String × α → Bool)
    (hnodup : (m.map (·.1)).Nodup) (hget : m.getA k = some v)
    (hp : p (k, v) = true) :
    ((m.filter p).map (·.1)).count k = 1 := by
  induction m with
  | nil => simp [SMap.getA] at hget
  | cons q t ih =>
      simp only [List.map_cons, List.nodup_cons] at hnodup
      obtain ⟨hq, ht⟩ := hnodup
      simp only [SMap.getA] at hget
      by_cases hqk : q.1 = k
      · rw [if_pos hqk] at hget
        have hget2 : q.2 = v := by injection hget
        have hqv : q = (k, v) := by
          rw [← hqk, ← hget2]
        have hpq : p q = true := by rw [hqv]; exact hp
        rw [List.filter_cons, if_pos (by simp [hpq])]
        simp only [List.map_cons, List.count_cons, hqk]
        have hzero : ((t.filter p).map (·.1)).count k = 0 := by
          rw [List.count_eq_zero]
          intro hmem
          obtain ⟨q', hq', hk⟩ := List.mem_map.mp hmem
          have hmem2 : q'.1 ∈ t.map (·.1) :=
            List.mem_map_of_mem _ (List.mem_of_mem_filter hq')
          rw [hk, ← hqk] at hmem2
          exact hq hmem2
        simp [hzero]
      · rw [if_neg hqk] at hget
        rw [List.filter_cons]
        by_cases hpq : p q = true
        · rw [if_pos (by simp [hpq])]
          simp only [List.map_cons, List.count_cons]
          have hbeq : (q.1 == k) = false := by simp [hqk]
          simp [hbeq, ih ht hget]
        · rw [if_neg (by simpa using hpq)]
          exact ih ht hget

theorem count_map_pair (cbs : List Nat) (a rid : String) (cb : Nat) :
    ((cbs.map (fun c => (c, a))).count (cb, rid)) =
      if a = rid then cbs.count cb else 0 := by
  induction cbs with
  | nil => simp
  | cons c t ih =>
      simp only [List.map_cons, List.count_cons, ih]
      by_cases ha : a = rid
      · subst ha
        by_cases hc : c = cb
        · subst hc; simp
        · have h1 : ((c, a) == (cb, a)) = false := by simp [hc]
          have h2 : (c == cb) = false := by simp [hc]
          simp [h1, h2]
      · have h1 : ((c, a) == (cb, rid)) = false := by simp [ha]
        simp [h1, ha]

theorem count_invocations (l : List String) (cbs : List Nat) (cb : Nat)
    (rid : String) :
    ((RobotManagerState.disconnect_invocations cbs l).count (cb, rid)) =
      l.count rid * cbs.count cb := by
  unfold RobotManagerState.disconnect_invocations
  induction l with
  | nil => simp
  | cons a t ih =>
      simp only [List.flatMap_cons, List.count_append, ih, count_map_pair,
        List.count_cons]
      by_cases ha : a = rid
      · simp only [ha, if_pos rfl, beq_self_eq_true, if_true]
        rw [Nat.add_mul, one_mul]
        exact Nat.add_comm _ _
      · have hbeq : (a == rid) = false := by simp [ha]
        simp [ha, hbeq]

/-- C4: a connected robot whose age exceeds the 60-second timeout at a
sweep is removed from the connected map by that sweep, its id is
recorded exactly once, and every registered disconnect callback is
invoked exactly once with that id. -/
theorem claim_C4_health_sweep (rm : RobotManagerState) (now : ℚ) (rid : String)
    (r : Robot) (callbacks : List Nat)
    (hnodup : (rm.connected_robots.map (·.1)).Nodup)
    (hcbs : callbacks.Nodup)
    (hget : rm.connected_robots.getA rid = some r)
    (htime : now - r.last_seen_time > RobotManagerState.ROBOT_TIMEOUT_SECONDS) :
    ((rm.timeout_sweep now).1.connected_robots.getA rid = none) ∧
    ((rm.timeout_sweep now).2.2.count rid = 1) ∧
    (∀ cb ∈ callbacks,
      ((RobotManagerState.disconnect_invocations callbacks
        (rm.timeout_sweep now).2.2).count (cb, rid)) = 1) := by
  unfold RobotManagerState.timeout_sweep
  refine ⟨?_, ?_, ?_⟩
  · exact SMap.getA_filter_none _ _ r _ hnodup hget (by simp [htime])
  · exact SMap.count_keys_filter_one _ _ r _ hnodup hget (by simp [htime])
  · intro cb hcb
    rw [count_invocations]
    rw [SMap.count_keys_filter_one _ _ r _ hnodup hget (by simp [htime])]
    rw [one_mul]
    exact List.count_eq_one_of_mem hcbs hcb

theorem claim_C4_health_sweep_witness :
    ((Examples.rmStale.timeout_sweep 61).1.connected_robots.getA "bot1" = none) ∧
    ((Examples.rmStale.timeout_sweep 61).2.2.count "bot1" = 1) ∧
    ((RobotManagerState.disconnect_invocations [0]
      (Examples.rmStale.timeout_sweep 61).2.2).count (0, "bot1") = 1) :=
  have h := claim_C4_health_sweep Examples.rmStale 61 "bot1"
    { id := "bot1", name := "bot1", ip_address := "10.0.0.9",
      status := "connected", last_seen_time := 0 } [0]
    (by simp [Examples.rmStale]) (by simp) rfl
    (by norm_num [RobotManagerState.ROBOT_TIMEOUT_SECONDS])
  ⟨h.1, h.2.1, h.2.2 0 (by simp)⟩

theorem poll_step_estop (frames : String → Option RawJoystick)
    (acc : SystemState × List Output) (e : String × GameController)
    (h : acc.1.cm.emergency_stop_active = true) :
    ((ControllerManager.poll_step frames acc e).1.cm.emergency_stop_active = true) ∧
    (ControllerManager.poll_step frames acc e).2 = acc.2 := by
  unfold ControllerManager.poll_step
  dsimp only
  by_cases he : (!acc.1.cm.controller_enabled.getD e.1 false) = true
  · rw [if_pos he]
    exact ⟨h, rfl⟩
  · rw [if_neg he]
    cases hf : frames e.1
    · exact ⟨h, rfl⟩
    · constructor
      · simp [h]
      · simp [h]

theorem foldl_poll_no_output (frames : String → Option RawJoystick)
    (l : List (String × GameController)) (acc : SystemState × List Output)
    (h : acc.1.cm.emergency_stop_active = true) :
    (l.foldl (ControllerManager.poll_step frames) acc).2 = acc.2 := by
  induction l generalizing acc with
  | nil => rfl
  | cons e t ih =>
      simp only [List.foldl_cons]
      rw [ih _ (poll_step_estop frames acc e h).1]
      exact (poll_step_estop frames acc e h).2

/-- C1: when the emergency-stop mirror of the controller manager is
raised, one full dispatch cycle emits no output at all — no movement
command and no stop command for any paired controller, whatever the
frames report. -/
theorem claim_C1_estop_suppresses_all_commands (st : SystemState)
    (frames : String → Option RawJoystick)
    (h : st.cm.emergency_stop_active = true) :
    (ControllerManager.poll_controller_inputs st frames).2 = [] := by
  unfold ControllerManager.poll_controller_inputs
  exact foldl_poll_no_output frames _ (st, []) h

theorem claim_C1_estop_suppresses_all_commands_witness :
    Examples.stEstop.cm.emergency_stop_active = true ∧
    (ControllerManager.poll_controller_inputs Examples.stEstop
      Examples.framesC1).2 = [] :=
  ⟨rfl, claim_C1_estop_suppresses_all_commands Examples.stEstop
    Examples.framesC1 rfl⟩

/-- C5 (counterexample): enabling an id that names no tracked
controller is not a no-op — it inserts an enabled flag for the unknown
id into the registry. -/
theorem claim_C5_counterexample :
    (({} : SystemState)).cm.connected_controllers.getA "ghost" = none ∧
    ControllerManager.enable_controller ({} : SystemState) "ghost" ≠
      ({} : SystemState) := by
  constructor
  · rfl
  · intro h
    have h2 := congrArg (fun s : SystemState => s.cm.controller_enabled) h
    simp [ControllerManager.enable_controller, SMap.setA, SMap.eraseA] at h2

/-- C5 (amended): pairing an unknown controller id and sending a stop
command for an unresolvable robot id are no-ops (state unchanged, no
command emitted, no error); enabling, however, records the enabled
flag unconditionally, even for an id absent from the registry. -/
theorem claim_C5_unknown_id_amended (st : SystemState) (cid rid : String)
    (rm : RobotManagerState) (nm : String) (st2 : SystemState) (cid2 : String)
    (h1 : st.cm.connected_controllers.getA cid = none)
    (h2 : rm.get_robot nm = none) :
    ControllerManager.pair_controller_with_robot st cid rid = st ∧
    rm.send_stop_command nm = [] ∧
    (ControllerManager.enable_controller st2 cid2).cm.controller_enabled.getA
      cid2 = some true := by
  refine ⟨?_, ?_, ?_⟩
  · unfold ControllerManager.pair_controller_with_robot
    rw [h1]
  · unfold RobotManagerState.send_stop_command
    rw [h2]
  · unfold ControllerManager.enable_controller
    simp [SMap.getA_setA]

theorem claim_C5_unknown_id_amended_witness :
    Examples.stBase.cm.connected_controllers.getA "nope" = none ∧
    (({} : RobotManagerState)).get_robot "ghost" = none ∧
    ControllerManager.pair_controller_with_robot Examples.stBase "nope" "r1" =
      Examples.stBase ∧
    (({} : RobotManagerState)).send_stop_command "ghost" = [] ∧
    (ControllerManager.enable_controller Examples.stBase
      "zzz").cm.controller_enabled.getA "zzz" = some true :=
  have hc := claim_C5_unknown_id_amended Examples.stBase "nope" "r1" {} "ghost"
    Examples.stBase "zzz" rfl rfl
  ⟨rfl, rfl, hc.1, hc.2.1, hc.2.2⟩

/-- C10: pairing a tracked controller with any robot id always records
the forward pairing (controller pointer and forward map), even when
the robot id resolves to nothing — in which case the robot side is
untouched and the pairing is one-sided. -/
theorem claim_C10_forward_pairing_always (st : SystemState) (cid rid : String)
    (gc : GameController)
    (h : st.cm.connected_controllers.getA cid = some gc) :
    ((ControllerManager.pair_controller_with_robot st
        cid rid).cm.connected_controllers.getA cid =
      some (gc.set_paired_robot_id (some rid))) ∧
    ((ControllerManager.pair_controller_with_robot st
        cid rid).cm.controller_robot_pairings.getA cid = some rid) ∧
    (st.rm.get_robot rid = none →
      (ControllerManager.pair_controller_with_robot st cid rid).rm = st.rm) := by
  unfold ControllerManager.pair_controller_with_robot
  rw [h]
  refine ⟨?_, ?_, ?_⟩
  · simp [SMap.getA_setA]
  · simp [SMap.getA_setA]
  · intro hn
    rw [hn]

theorem claim_C10_forward_pairing_always_witness :
    Examples.stBase.cm.connected_controllers.getA "c1" = some Examples.gcC1 ∧
    Examples.stBase.rm.get_robot "ghost" = none ∧
    ((ControllerManager.pair_controller_with_robot Examples.stBase
        "c1" "ghost").cm.connected_controllers.getA "c1" =
      some (Examples.gcC1.set_paired_robot_id (some "ghost"))) ∧
    ((ControllerManager.pair_controller_with_robot Examples.stBase
        "c1" "ghost").cm.controller_robot_pairings.getA "c1" = some "ghost") ∧
    ((ControllerManager.pair_controller_with_robot Examples.stBase
        "c1" "ghost").rm = Examples.stBase.rm) :=
  have hc := claim_C10_forward_pairing_always Examples.stBase "c1" "ghost"
    Examples.gcC1 rfl
  ⟨rfl, rfl, hc.1, hc.2.1, hc.2.2 rfl⟩

theorem orElse_some_eq {α : Type} (a : α) (f : Unit → Option α) :
    (some a).orElse f = some a := rfl

theorem orElse_none_eq {α : Type} (f : Unit → Option α) :
    (none : Option α).orElse f = f () := rfl

theorem get_robot_set_paired_same (rm : RobotManagerState) (rid : String)
    (c : Option String) (r : Robot) (h : rm.get_robot rid = some r) :
    (rm.set_robot_paired rid c).get_robot rid =
      some (r.set_paired_controller c) := by
  unfold RobotManagerState.get_robot RobotManagerState.set_robot_paired at *
  cases hc : rm.connected_robots.getA rid with
  | some rc =>
      rw [hc, orElse_some_eq] at h
      injection h with h
      subst h
      dsimp only
      rw [SMap.getA_setA, if_pos rfl, orElse_some_eq]
  | none =>
      rw [hc, orElse_none_eq] at h
      cases hd : rm.discovered_robots.getA rid with
      | some rd =>
          rw [hd] at h
          injection h with h
          subst h
          dsimp only
          rw [hc, orElse_none_eq, SMap.getA_setA, if_pos rfl]
      | none => rw [hd] at h; exact absurd h (by simp)

theorem get_robot_set_paired_other (rm : RobotManagerState) (rid rid' : String)
    (c : Option String) (h : rid' ≠ rid) :
    (rm.set_robot_paired rid c).get_robot rid' = rm.get_robot rid' := by
  unfold RobotManagerState.get_robot RobotManagerState.set_robot_paired
  cases hc : rm.connected_robots.getA rid with
  | some rc =>
      dsimp only
      rw [SMap.getA_setA, if_neg h]
  | none =>
      cases hd : rm.discovered_robots.getA rid with
      | some rd =>
          dsimp only
          cases hc' : rm.connected_robots.getA rid' with
          | some x => rw [orElse_some_eq, orElse_some_eq]
          | none =>
              rw [orElse_none_eq, orElse_none_eq, SMap.getA_setA, if_neg h]
      | none => rfl

theorem set_robot_paired_not_found (rm : RobotManagerState) (rid : String)
    (c : Option String) (h : rm.get_robot rid = none) :
    rm.set_robot_paired rid c = rm := by
  unfold RobotManagerState.get_robot at h
  unfold RobotManagerState.set_robot_paired
  cases hc : rm.connected_robots.getA rid with
  | some rc => rw [hc, orElse_some_eq] at h; exact absurd h (by simp)
  | none =>
      rw [hc, orElse_none_eq] at h
      rw [h]

theorem pair_effect_controllers (st : SystemState) (cid rid : String)
    (gc : GameController)
    (hgc : st.cm.connected_controllers.getA cid = some gc) (c2 : String) :
    (ControllerManager.pair_controller_with_robot
        st cid rid).cm.connected_controllers.getA c2 =
      if c2 = cid then some (gc.set_paired_robot_id (some rid))
      else st.cm.connected_controllers.getA c2 := by
  unfold ControllerManager.pair_controller_with_robot
  rw [hgc]
  dsimp only
  rw [SMap.getA_setA]

theorem pair_effect_pairings (st : SystemState) (cid rid : String)
    (gc : GameController)
    (hgc : st.cm.connected_controllers.getA cid = some gc) (c2 : String) :
    (ControllerManager.pair_controller_with_robot
        st cid rid).cm.controller_robot_pairings.getA c2 =
      if c2 = cid then some rid
      else st.cm.controller_robot_pairings.getA c2 := by
  unfold ControllerManager.pair_controller_with_robot
  rw [hgc]
  dsimp only
  rw [SMap.getA_setA]

theorem pair_effect_rm (st : SystemState) (cid rid : String)
    (gc : GameController) (r : Robot)
    (hgc : st.cm.connected_controllers.getA cid = some gc)
    (hr : st.rm.get_robot rid = some r) :
    (ControllerManager.pair_controller_with_robot st cid rid).rm =
      st.rm.set_robot_paired rid (some cid) := by
  unfold ControllerManager.pair_controller_with_robot
  rw [hgc]
  dsimp only
  rw [hr]

theorem forward_extract (st : SystemState) (hF : ForwardCoherent st)
    (cid rid : String)
    (hpair : st.cm.controller_robot_pairings.getA cid = some rid) :
    ∃ gc, st.cm.connected_controllers.getA cid = some gc ∧
      gc.paired_robot_id = some rid := by
  have h := hF cid
  rw [hpair] at h
  cases hgc : st.cm.connected_controllers.getA cid with
  | none => rw [hgc] at h; simp at h
  | some gc =>
      rw [hgc] at h
      simp only [Option.some_bind] at h
      exact ⟨gc, rfl, h.symm⟩

theorem unpair_noop (st : SystemState) (cid : String)
    (hpair : st.cm.controller_robot_pairings.getA cid = none) :
    ControllerManager.unpair_controller st cid = st := by
  unfold ControllerManager.unpair_controller
  rw [hpair]

theorem unpair_effect_controllers (st : SystemState) (cid rid : String)
    (gc : GameController)
    (hpair : st.cm.controller_robot_pairings.getA cid = some rid)
    (hgc : st.cm.connected_controllers.getA cid = some gc) (c2 : String) :
    (ControllerManager.unpair_controller st cid).cm.connected_controllers.getA c2 =
      if c2 = cid then some (gc.set_paired_robot_id none)
      else st.cm.connected_controllers.getA c2 := by
  unfold ControllerManager.unpair_controller
  rw [hpair]
  dsimp only
  rw [hgc]
  dsimp only
  rw [SMap.getA_setA]

theorem unpair_effect_pairings (st : SystemState) (cid rid : String)
    (gc : GameController)
    (hpair : st.cm.controller_robot_pairings.getA cid = some rid)
    (hgc : st.cm.connected_controllers.getA cid = some gc) (c2 : String) :
    (ControllerManager.unpair_controller st cid).cm.controller_robot_pairings.getA
      c2 =
      if c2 = cid then none else st.cm.controller_robot_pairings.getA c2 := by
  unfold ControllerManager.unpair_controller
  rw [hpair]
  dsimp only
  rw [hgc]
  dsimp only
  rw [SMap.getA_eraseA]

theorem unpair_effect_rm_found (st : SystemState) (cid rid : String) (r : Robot)
    (hpair : st.cm.controller_robot_pairings.getA cid = some rid)
    (hrob : st.rm.get_robot rid = some r) :
    (ControllerManager.unpair_controller st cid).rm =
      st.rm.set_robot_paired rid none := by
  unfold ControllerManager.unpair_controller
  rw [hpair]
  dsimp only
  rw [hrob]

theorem unpair_effect_rm_missing (st : SystemState) (cid rid : String)
    (hpair : st.cm.controller_robot_pairings.getA cid = some rid)
    (hrob : st.rm.get_robot rid = none) :
    (ControllerManager.unpair_controller st cid).rm = st.rm := by
  unfold ControllerManager.unpair_controller
  rw [hpair]
  dsimp only
  rw [hrob]

theorem unpair_preserves_invariants (st : SystemState) (cid : String)
    (hP : PairConsistent st) (hF : ForwardCoherent st) :
    PairConsistent (ControllerManager.unpair_controller st cid) ∧
    ForwardCoherent (ControllerManager.unpair_controller st cid) := by
  cases hpair : st.cm.controller_robot_pairings.getA cid with
  | none => rw [unpair_noop st cid hpair]; exact ⟨hP, hF⟩
  | some rid =>
      obtain ⟨gc, hgc, hgcp⟩ := forward_extract st hF cid rid hpair
      have hFpart : ForwardCoherent (ControllerManager.unpair_controller st cid) := by
        intro c2
        rw [unpair_effect_controllers st cid rid gc hpair hgc c2,
            unpair_effect_pairings st cid rid gc hpair hgc c2]
        by_cases h3 : c2 = cid
        · rw [if_pos h3, if_pos h3]
          simp [GameController.set_paired_robot_id]
        · rw [if_neg h3, if_neg h3]
          exact hF c2
      refine ⟨?_, hFpart⟩
      cases hrob : st.rm.get_robot rid with
      | some r =>
          have hrp : r.paired_controller_id = some cid :=
            (hP rid r cid gc hrob hgc).mpr hgcp
          intro rid2 r2 cid2 gc2 hr2 hgc2
          rw [unpair_effect_controllers st cid rid gc hpair hgc cid2] at hgc2
          rw [unpair_effect_rm_found st cid rid r hpair hrob] at hr2
          by_cases h2 : rid2 = rid
          · subst h2
            rw [get_robot_set_paired_same st.rm rid2 none r hrob] at hr2
            injection hr2 with hr2
            subst hr2
            by_cases h3 : cid2 = cid
            · subst h3
              rw [if_pos rfl] at hgc2
              injection hgc2 with hgc2
              subst hgc2
              simp [Robot.set_paired_controller, GameController.set_paired_robot_id]
            · rw [if_neg h3] at hgc2
              constructor
              · intro hx
                exfalso
                simp [Robot.set_paired_controller] at hx
              · intro hx
                exfalso
                have hy := (hP rid2 r cid2 gc2 hrob hgc2).mpr hx
                rw [hrp] at hy
                injection hy with hy
                exact h3 hy.symm
          · rw [get_robot_set_paired_other st.rm rid rid2 none h2] at hr2
            by_cases h3 : cid2 = cid
            · subst h3
              rw [if_pos rfl] at hgc2
              injection hgc2 with hgc2
              subst hgc2
              constructor
              · intro hx
                exfalso
                have hy := (hP rid2 r2 cid2 gc hr2 hgc).mp hx
                rw [hgcp] at hy
                injection hy with hy
                exact h2 hy.symm
              · intro hx
                exfalso
                simp [GameController.set_paired_robot_id] at hx
            · rw [if_neg h3] at hgc2
              exact hP rid2 r2 cid2 gc2 hr2 hgc2
      | none =>
          intro rid2 r2 cid2 gc2 hr2 hgc2
          rw [unpair_effect_controllers st cid rid gc hpair hgc cid2] at hgc2
          rw [unpair_effect_rm_missing st cid rid hpair hrob] at hr2
          by_cases h3 : cid2 = cid
          · subst h3
            rw [if_pos rfl] at hgc2
            injection hgc2 with hgc2
            subst hgc2
            constructor
            · intro hx
              exfalso
              have hy := (hP rid2 r2 cid2 gc hr2 hgc).mp hx
              rw [hgcp] at hy
              injection hy with hy
              rw [← hy] at hr2
              rw [hrob] at hr2
              exact absurd hr2 (by simp)
            · intro hx
              exfalso
              simp [GameController.set_paired_robot_id] at hx
          · rw [if_neg h3] at hgc2
            exact hP rid2 r2 cid2 gc2 hr2 hgc2

theorem remove_nopair_controllers (st : SystemState) (cid : String)
    (hpair : st.cm.controller_robot_pairings.getA cid = none) (c2 : String) :
    (ControllerManager.remove_controller st cid).cm.connected_controllers.getA
      c2 =
      if c2 = cid then none else st.cm.connected_controllers.getA c2 := by
  unfold ControllerManager.remove_controller
  dsimp only
  rw [hpair]
  dsimp only
  rw [SMap.getA_eraseA]

theorem remove_nopair_pairings (st : SystemState) (cid : String)
    (hpair : st.cm.controller_robot_pairings.getA cid = none) (c2 : String) :
    (ControllerManager.remove_controller st cid).cm.controller_robot_pairings.getA
      c2 = st.cm.controller_robot_pairings.getA c2 := by
  unfold ControllerManager.remove_controller
  dsimp only
  rw [hpair]

theorem remove_nopair_rm (st : SystemState) (cid : String)
    (hpair : st.cm.controller_robot_pairings.getA cid = none) :
    (ControllerManager.remove_controller st cid).rm = st.rm := by
  unfold ControllerManager.remove_controller
  dsimp only
  rw [hpair]

theorem remove_effect_controllers (st : SystemState) (cid rid : String)
    (hpair : st.cm.controller_robot_pairings.getA cid = some rid) (c2 : String) :
    (ControllerManager.remove_controller st cid).cm.connected_controllers.getA
      c2 =
      if c2 = cid then none else st.cm.connected_controllers.getA c2 := by
  unfold ControllerManager.remove_controller
  dsimp only
  rw [hpair]
  dsimp only
  rw [SMap.getA_eraseA]

theorem remove_effect_pairings (st : SystemState) (cid rid : String)
    (hpair : st.cm.controller_robot_pairings.getA cid = some rid) (c2 : String) :
    (ControllerManager.remove_controller st cid).cm.controller_robot_pairings.getA
      c2 =
      if c2 = cid then none else st.cm.controller_robot_pairings.getA c2 := by
  unfold ControllerManager.remove_controller
  dsimp only
  rw [hpair]
  dsimp only
  rw [SMap.getA_eraseA]

theorem remove_effect_rm_found (st : SystemState) (cid rid : String) (r : Robot)
    (hpair : st.cm.controller_robot_pairings.getA cid = some rid)
    (hrob : st.rm.get_robot rid = some r) :
    (ControllerManager.remove_controller st cid).rm =
      st.rm.set_robot_paired rid none := by
  unfold ControllerManager.remove_controller
  dsimp only
  rw [hpair]
  dsimp only
  rw [hrob]

theorem remove_effect_rm_missing (st : SystemState) (cid rid : String)
    (hpair : st.cm.controller_robot_pairings.getA cid = some rid)
    (hrob : st.rm.get_robot rid = none) :
    (ControllerManager.remove_controller st cid).rm = st.rm := by
  unfold ControllerManager.remove_controller
  dsimp only
  rw [hpair]
  dsimp only
  rw [hrob]

theorem remove_preserves_invariants (st : SystemState) (cid : String)
    (hP : PairConsistent st) (hF : ForwardCoherent st) :
    PairConsistent (ControllerManager.remove_controller st cid) ∧
    ForwardCoherent (ControllerManager.remove_controller st cid) := by
  cases hpair : st.cm.controller_robot_pairings.getA cid with
  | none =>
      constructor
      · intro rid2 r2 cid2 gc2 hr2 hgc2
        rw [remove_nopair_controllers st cid hpair cid2] at hgc2
        rw [remove_nopair_rm st cid hpair] at hr2
        by_cases h3 : cid2 = cid
        · rw [if_pos h3] at hgc2
          exact absurd hgc2 (by simp)
        · rw [if_neg h3] at hgc2
          exact hP rid2 r2 cid2 gc2 hr2 hgc2
      · intro c2
        rw [remove_nopair_controllers st cid hpair c2,
            remove_nopair_pairings st cid hpair c2]
        by_cases h3 : c2 = cid
        · rw [if_pos h3, h3, hpair]
          simp
        · rw [if_neg h3]
          exact hF c2
  | some rid =>
      obtain ⟨gc, hgc, hgcp⟩ := forward_extract st hF cid rid hpair
      have hFpart :
          ForwardCoherent (ControllerManager.remove_controller st cid) := by
        intro c2
        rw [remove_effect_controllers st cid rid hpair c2,
            remove_effect_pairings st cid rid hpair c2]
        by_cases h3 : c2 = cid
        · rw [if_pos h3, if_pos h3]
          simp
        · rw [if_neg h3, if_neg h3]
          exact hF c2
      refine ⟨?_, hFpart⟩
      cases hrob : st.rm.get_robot rid with
      | some r =>
          have hrp : r.paired_controller_id = some cid :=
            (hP rid r cid gc hrob hgc).mpr hgcp
          intro rid2 r2 cid2 gc2 hr2 hgc2
          rw [remove_effect_controllers st cid rid hpair cid2] at hgc2
          rw [remove_effect_rm_found st cid rid r hpair hrob] at hr2
          by_cases h3 : cid2 = cid
          · rw [if_pos h3] at hgc2
            exact absurd hgc2 (by simp)
          · rw [if_neg h3] at hgc2
            by_cases h2 : rid2 = rid
            · subst h2
              rw [get_robot_set_paired_same st.rm rid2 none r hrob] at hr2
              injection hr2 with hr2
              subst hr2
              constructor
              · intro hx
                exfalso
                simp [Robot.set_paired_controller] at hx
              · intro hx
                exfalso
                have hy := (hP rid2 r cid2 gc2 hrob hgc2).mpr hx
                rw [hrp] at hy
                injection hy with hy
                exact h3 hy.symm
            · rw [get_robot_set_paired_other st.rm rid rid2 none h2] at hr2
              exact hP rid2 r2 cid2 gc2 hr2 hgc2
      | none =>
          intro rid2 r2 cid2 gc2 hr2 hgc2
          rw [remove_effect_controllers st cid rid hpair cid2] at hgc2
          rw [remove_effect_rm_missing st cid rid hpair hrob] at hr2
          by_cases h3 : cid2 = cid
          · rw [if_pos h3] at hgc2
            exact absurd hgc2 (by simp)
          · rw [if_neg h3] at hgc2
            exact hP rid2 r2 cid2 gc2 hr2 hgc2

theorem pair_preserves_invariants (st : SystemState) (cid rid : String)
    (gc : GameController) (r : Robot)
    (hP : PairConsistent st) (hF : ForwardCoherent st)
    (hgc : st.cm.connected_controllers.getA cid = some gc)
    (hgc0 : gc.paired_robot_id = none)
    (hr : st.rm.get_robot rid = some r)
    (hr0 : r.paired_controller_id = none) :
    PairConsistent (ControllerManager.pair_controller_with_robot st cid rid) ∧
    ForwardCoherent (ControllerManager.pair_controller_with_robot st cid rid) := by
  have hrm := pair_effect_rm st cid rid gc r hgc hr
  constructor
  · intro rid2 r2 cid2 gc2 hr2 hgc2
    rw [pair_effect_controllers st cid rid gc hgc cid2] at hgc2
    rw [hrm] at hr2
    by_cases h2 : rid2 = rid
    · subst h2
      rw [get_robot_set_paired_same st.rm rid2 (some cid) r hr] at hr2
      injection hr2 with hr2
      subst hr2
      by_cases h3 : cid2 = cid
      · subst h3
        rw [if_pos rfl] at hgc2
        injection hgc2 with hgc2
        subst hgc2
        simp [Robot.set_paired_controller, GameController.set_paired_robot_id]
      · rw [if_neg h3] at hgc2
        constructor
        · intro hx
          exfalso
          simp [Robot.set_paired_controller] at hx
          exact h3 hx.symm
        · intro hx
          exfalso
          have hy := (hP rid2 r cid2 gc2 hr hgc2).mpr hx
          rw [hr0] at hy
          exact absurd hy (by simp)
    · rw [get_robot_set_paired_other st.rm rid rid2 (some cid) h2] at hr2
      by_cases h3 : cid2 = cid
      · subst h3
        rw [if_pos rfl] at hgc2
        injection hgc2 with hgc2
        subst hgc2
        constructor
        · intro hx
          exfalso
          have hy := (hP rid2 r2 cid2 gc hr2 hgc).mp hx
          rw [hgc0] at hy
          exact absurd hy (by simp)
        · intro hx
          exfalso
          simp [GameController.set_paired_robot_id] at hx
          exact h2 hx.symm
      · rw [if_neg h3] at hgc2
        exact hP rid2 r2 cid2 gc2 hr2 hgc2
  · intro c2
    rw [pair_effect_controllers st cid rid gc hgc c2,
        pair_effect_pairings st cid rid gc hgc c2]
    by_cases h3 : c2 = cid
    · rw [if_pos h3, if_pos h3]
      simp [GameController.set_paired_robot_id]
    · rw [if_neg h3, if_neg h3]
      exact hF c2

/-- C2 (amended): the bidirectional pairing agreement, together with
the coherence of the forward map with the controller-side pointers, is
preserved by unpair and by confirmed controller removal
unconditionally, and by pair provided the target robot resolves and
both parties are currently unpaired.  (Unrestricted pair violates it:
see the counterexample, where re-pairing a paired controller leaves
the former robot's back-reference stale.) -/
theorem claim_C2_pairing_invariant_amended (st : SystemState)
    (hP : PairConsistent st) (hF : ForwardCoherent st) :
    (∀ cid, PairConsistent (ControllerManager.unpair_controller st cid) ∧
      ForwardCoherent (ControllerManager.unpair_controller st cid)) ∧
    (∀ cid, PairConsistent (ControllerManager.remove_controller st cid) ∧
      ForwardCoherent (ControllerManager.remove_controller st cid)) ∧
    (∀ cid rid gc r,
      st.cm.connected_controllers.getA cid = some gc →
      gc.paired_robot_id = none →
      st.rm.get_robot rid = some r →
      r.paired_controller_id = none →
      PairConsistent (ControllerManager.pair_controller_with_robot st cid rid) ∧
      ForwardCoherent (ControllerManager.pair_controller_with_robot st cid rid)) :=
  ⟨fun cid => unpair_preserves_invariants st cid hP hF,
   fun cid => remove_preserves_invariants st cid hP hF,
   fun cid rid gc r hgc hgc0 hr hr0 =>
     pair_preserves_invariants st cid rid gc r hP hF hgc hgc0 hr hr0⟩

/-- C2 (counterexample): starting from a consistent state, pairing
`c1` with `r1` and then with `r2` leaves robot `r1`'s back-reference
pointing at `c1` while `c1`'s forward pointer names `r2`, so the
bidirectional agreement fails. -/
theorem claim_C2_counterexample :
    ((Examples.stPairTwice.rm.get_robot "r1").map Robot.paired_controller_id =
      some (some "c1")) ∧
    ((Examples.stPairTwice.cm.connected_controllers.getA "c1").map
      GameController.paired_robot_id = some (some "r2")) ∧
    ¬ PairConsistent Examples.stPairTwice := by
  refine ⟨rfl, rfl, ?_⟩
  intro h
  have h2 := h "r1" (Examples.robotR1.set_paired_controller (some "c1")) "c1"
    ((Examples.gcC1.set_paired_robot_id (some "r1")).set_paired_robot_id
      (some "r2")) rfl rfl
  have h3 := h2.mp rfl
  simp [Examples.gcC1, GameController.set_paired_robot_id] at h3

theorem pair_consistent_stBase : PairConsistent Examples.stBase := by
  intro rid r cid gc hr hgc
  have hrp : r.paired_controller_id = none := by
    unfold RobotManagerState.get_robot at hr
    simp only [Examples.stBase] at hr
    rw [show SMap.getA ([] : SMap Robot) rid = none from rfl, orElse_none_eq]
      at hr
    simp only [SMap.getA] at hr
    by_cases h1 : ("r1" : String) = rid
    · rw [if_pos h1] at hr
      injection hr with hr
      rw [← hr]
      rfl
    · rw [if_neg h1] at hr
      by_cases h2 : ("r2" : String) = rid
      · rw [if_pos h2] at hr
        injection hr with hr
        rw [← hr]
        rfl
      · rw [if_neg h2] at hr
        exact absurd hr (by simp)
  have hgp : gc.paired_robot_id = none := by
    simp only [Examples.stBase, SMap.getA] at hgc
    by_cases h1 : ("c1" : String) = cid
    · rw [if_pos h1] at hgc
      injection hgc with hgc
      rw [← hgc]
      rfl
    · rw [if_neg h1] at hgc
      exact absurd hgc (by simp)
  rw [hrp, hgp]
  simp

theorem forward_coherent_stBase : ForwardCoherent Examples.stBase := by
  intro cid
  show SMap.getA ([] : SMap String) cid = _
  simp only [Examples.stBase, SMap.getA]
  by_cases h1 : ("c1" : String) = cid
  · rw [if_pos h1]
    rfl
  · rw [if_neg h1]
    rfl

theorem claim_C2_pairing_invariant_amended_witness :
    PairConsistent (ControllerManager.unpair_controller Examples.stBase "c1") ∧
    PairConsistent (ControllerManager.remove_controller Examples.stBase "c1") ∧
    PairConsistent (ControllerManager.pair_controller_with_robot
      Examples.stBase "c1" "r1") :=
  have h := claim_C2_pairing_invariant_amended Examples.stBase
    pair_consistent_stBase forward_coherent_stBase
  ⟨(h.1 "c1").1, (h.2.1 "c1").1,
   (h.2.2 "c1" "r1" Examples.gcC1 Examples.robotR1 rfl rfl rfl rfl).1⟩

/-- C3 (code at the failing input): with `c1` paired to `r1`, over the
scan sequence "missing, observed, missing, missing" (dead joystick
handle throughout) the enumeration re-observation at scan 2 leaves the
miss counter at 1 instead of resetting it, so scan 4 — only the second
consecutive miss — removes the controller and clears its pairing,
although the claim requires it to stay present. -/
theorem claim_C3_debounce_trace :
    ((Examples.debounce2.cm.connected_controllers.getA "c1").isSome = true) ∧
    (Examples.debounce2.cm.missing_counts.getA "c1" = some 1) ∧
    ((Examples.debounce3.cm.connected_controllers.getA "c1").isSome = true) ∧
    (Examples.debounce3.cm.missing_counts.getA "c1" = some 2) ∧
    (Examples.debounce4.cm.connected_controllers.getA "c1" = none) ∧
    (Examples.debounce4.cm.controller_robot_pairings.getA "c1" = none) ∧
    ((Examples.debounce4.rm.get_robot "r1").map Robot.paired_controller_id =
      some none) :=
  ⟨rfl, rfl, rfl, rfl, rfl, rfl, rfl⟩

end SoccerBots
